import Mathlib

/-!
Verification of the UNSC Voting Explorer (app.py): a Streamlit chat front end
over a fixed UN Security Council voting dataset.  Per user turn the app calls a
hosted chat-completion API to generate Python code, extracts a fenced code
block from the reply, executes it against the in-memory DataFrame while
capturing stdout, asks the API for a plain-English explanation, and appends the
turn to the session transcript.

Strings are modelled as `List Char`.  The two outbound API calls and the
execution of the model-generated code are non-deterministic external effects;
they enter the model as oracle parameters (`ApiResult` outcomes and an
`ExecSem` giving the state effect of the executed code string).
-/

namespace VotingAgent

/-! ### Python string primitives -/

/-- Whitespace characters removed by Python's `str.strip()` (ASCII range). -/
def pyWhitespace (c : Char) : Bool :=
  c == ' ' || c == '\t' || c == '\n' || c == '\r' || c == '\u000b' || c == '\u000c'

/-- Python `str.strip()`: remove leading and trailing whitespace. -/
def pstrip (s : List Char) : List Char :=
  ((s.dropWhile pyWhitespace).reverse.dropWhile pyWhitespace).reverse

/-- `startsWith p s` : `p` is a literal prefix of `s`. -/
def startsWith : List Char → List Char → Bool
  | [], _ => true
  | _ :: _, [] => false
  | p :: ps, c :: cs => p == c && startsWith ps cs

/-! ### Code-fence extraction

app.py line 151: `re.search(r"```(?:python)?\n(.*?)```", code, re.DOTALL)`.
`fenceSearch` implements the regex search: scan left to right for an opening
fence (greedy optional `python` tag, then a newline), then take the lazily
matched body up to the first closing fence; if no closing fence follows an
opening, that start position fails and the scan advances one character. -/

def fence : List Char := "```".toList

def pythonTag : List Char := "python".toList

def fenceOpenPython : List Char := "```python\n".toList

def fenceOpenPlain : List Char := "```\n".toList

/-- Split a string at the first occurrence of a closing fence ` ``` `:
returns the text before it and the text after it. -/
def splitFence : List Char → Option (List Char × List Char)
  | [] => none
  | c :: cs =>
    if startsWith fence (c :: cs) then some ([], cs.drop 2)
    else
      match splitFence cs with
      | some (a, b) => some (c :: a, b)
      | none => none

/-- Try to match the opening of a fenced block at the head of `s`:
` ```python\n ` (greedy tag branch) or ` ```\n `. -/
def openTag (s : List Char) : Option (List Char) :=
  if startsWith fenceOpenPython s then some (s.drop 10)
  else if startsWith fenceOpenPlain s then some (s.drop 4)
  else none

/-- The regex search: the body of the leftmost fenced block, if any. -/
def fenceSearch : List Char → Option (List Char)
  | [] => none
  | c :: cs =>
    match openTag (c :: cs) with
    | some rest =>
      match splitFence rest with
      | some (body, _) => some body
      | none => fenceSearch cs
    | none => fenceSearch cs

/-- app.py lines 148-153: strip the reply; if the fence regex matches, use the
stripped body of the matched block, else the stripped reply itself. -/
def extractCode (resp : List Char) : List Char :=
  match fenceSearch (pstrip resp) with
  | some body => pstrip body
  | none => pstrip resp

/-- A fence tag admitted by `(?:python)?`: empty or the literal `python`. -/
def isFenceTag (t : List Char) : Prop := t = [] ∨ t = pythonTag

/-- Specification-level reading of "the string contains a ```-fenced block
(with optional python tag and a newline after the opening fence)". -/
def hasFencedBlock (s : List Char) : Prop :=
  ∃ pre tag body post, isFenceTag tag ∧
    s = pre ++ fence ++ tag ++ ['\n'] ++ body ++ fence ++ post

/-! ### Lemmas about the fence machinery -/

theorem startsWith_eq : ∀ (p s : List Char), startsWith p s = true →
    s = p ++ s.drop p.length := by
  intro p
  induction p with
  | nil => intro s _; simp
  | cons a ps ih =>
    intro s h
    cases s with
    | nil => simp [startsWith] at h
    | cons c cs =>
      simp only [startsWith, Bool.and_eq_true, beq_iff_eq] at h
      obtain ⟨hac, hrest⟩ := h
      subst hac
      simpa using congrArg (a :: ·) (ih cs hrest)

theorem splitFence_cons_pos {c : Char} {cs : List Char}
    (h : startsWith fence (c :: cs) = true) :
    splitFence (c :: cs) = some ([], cs.drop 2) := by
  simp [splitFence, h]

theorem splitFence_cons_neg {c : Char} {cs : List Char}
    (h : startsWith fence (c :: cs) = false) :
    splitFence (c :: cs) = (match splitFence cs with
      | some (a, b) => some (c :: a, b)
      | none => none) := by
  simp [splitFence, h]

theorem splitFence_eq_some : ∀ {s a b : List Char}, splitFence s = some (a, b) →
    s = a ++ fence ++ b := by
  intro s
  induction s with
  | nil => intro a b h; simp [splitFence] at h
  | cons c cs ih =>
    intro a b h
    cases hsw : startsWith fence (c :: cs) with
    | true =>
      rw [splitFence_cons_pos hsw] at h
      simp only [Option.some.injEq, Prod.mk.injEq] at h
      obtain ⟨ha, hb⟩ := h
      subst ha; subst hb
      have := startsWith_eq fence (c :: cs) hsw
      simpa using this
    | false =>
      rw [splitFence_cons_neg hsw] at h
      cases hm : splitFence cs with
      | none => simp only [hm] at h; exact Option.noConfusion h
      | some p =>
        obtain ⟨a', b'⟩ := p
        simp only [hm, Option.some.injEq, Prod.mk.injEq] at h
        obtain ⟨ha, hb⟩ := h
        subst ha; subst hb
        simpa using congrArg (c :: ·) (ih hm)

theorem splitFence_append_isSome : ∀ (a b : List Char),
    (splitFence (a ++ fence ++ b)).isSome = true := by
  intro a
  induction a with
  | nil => intro b; rfl
  | cons c a' ih =>
    intro b
    show (splitFence (c :: (a' ++ fence ++ b))).isSome = true
    cases hsw : startsWith fence (c :: (a' ++ fence ++ b)) with
    | true => rw [splitFence_cons_pos hsw]; rfl
    | false =>
      rw [splitFence_cons_neg hsw]
      have := ih b
      cases hm : splitFence (a' ++ fence ++ b) with
      | none => rw [hm] at this; simp at this
      | some p => obtain ⟨x, y⟩ := p; simp only [hm]; rfl

theorem openTag_eq_some {s rest : List Char} (h : openTag s = some rest) :
    s = fenceOpenPython ++ rest ∨ s = fenceOpenPlain ++ rest := by
  cases h1 : startsWith fenceOpenPython s with
  | true =>
    left
    have heq := startsWith_eq fenceOpenPython s h1
    have hl : fenceOpenPython.length = 10 := rfl
    rw [hl] at heq
    simp only [openTag, h1, if_true, Option.some.injEq] at h
    rw [h] at heq
    exact heq
  | false =>
    cases h2 : startsWith fenceOpenPlain s with
    | true =>
      right
      have heq := startsWith_eq fenceOpenPlain s h2
      have hl : fenceOpenPlain.length = 4 := rfl
      rw [hl] at heq
      simp [openTag, h1, h2] at h
      rw [h] at heq
      exact heq
    | false => simp [openTag, h1, h2] at h

theorem fenceOpenPython_eq : fenceOpenPython = fence ++ pythonTag ++ ['\n'] := by decide

theorem fenceOpenPlain_eq : fenceOpenPlain = fence ++ [] ++ ['\n'] := by decide

theorem fenceSearch_eq_some : ∀ {s b : List Char}, fenceSearch s = some b →
    ∃ pre tag post, isFenceTag tag ∧
      s = pre ++ fence ++ tag ++ ['\n'] ++ b ++ fence ++ post := by
  intro s
  induction s with
  | nil => intro b h; simp [fenceSearch] at h
  | cons c cs ih =>
    intro b h
    cases hop : openTag (c :: cs) with
    | none =>
      simp only [fenceSearch, hop] at h
      obtain ⟨pre, tag, post, htag, heq⟩ := ih h
      exact ⟨c :: pre, tag, post, htag, by simpa using congrArg (c :: ·) heq⟩
    | some rest =>
      cases hsp : splitFence rest with
      | none =>
        simp only [fenceSearch, hop, hsp] at h
        obtain ⟨pre, tag, post, htag, heq⟩ := ih h
        exact ⟨c :: pre, tag, post, htag, by simpa using congrArg (c :: ·) heq⟩
      | some p =>
        obtain ⟨a, b2⟩ := p
        simp only [fenceSearch, hop, hsp, Option.some.injEq] at h
        have hrest : rest = b ++ fence ++ b2 := h ▸ splitFence_eq_some hsp
        rcases openTag_eq_some hop with hpy | hpl
        · refine ⟨[], pythonTag, b2, Or.inr rfl, ?_⟩
          rw [hpy, hrest, fenceOpenPython_eq]
          simp [List.append_assoc]
        · refine ⟨[], [], b2, Or.inl rfl, ?_⟩
          rw [hpl, hrest, fenceOpenPlain_eq]
          simp [List.append_assoc]

theorem openTag_python (r : List Char) : openTag (fenceOpenPython ++ r) = some r := rfl

theorem openTag_plain (r : List Char) : openTag (fenceOpenPlain ++ r) = some r := rfl

theorem fenceOpenPlain_cons (r : List Char) :
    fenceOpenPlain ++ r = '\u0060' :: ('\u0060' :: '\u0060' :: '\n' :: r) := rfl

theorem fenceOpenPython_cons (r : List Char) :
    fenceOpenPython ++ r
      = '\u0060' :: ('\u0060' :: '\u0060' :: 'p' :: 'y' :: 't' :: 'h' :: 'o' :: 'n' :: '\n' :: r) := rfl

theorem fenceSearch_isSome : ∀ (pre tag body post : List Char), isFenceTag tag →
    (fenceSearch (pre ++ fence ++ tag ++ ['\n'] ++ body ++ fence ++ post)).isSome = true := by
  intro pre
  induction pre with
  | nil =>
    intro tag body post htag
    rcases htag with h | h <;> subst h
    · have hs : ([] : List Char) ++ fence ++ [] ++ ['\n'] ++ body ++ fence ++ post
          = fenceOpenPlain ++ (body ++ fence ++ post) := by
        rw [fenceOpenPlain_eq]; simp [List.append_assoc]
      have hop : openTag ('\u0060' :: '\u0060' :: '\u0060' :: '\n' :: (body ++ fence ++ post))
          = some (body ++ fence ++ post) := openTag_plain _
      rw [hs, fenceOpenPlain_cons]
      have := splitFence_append_isSome body post
      cases hm : splitFence (body ++ fence ++ post) with
      | none => rw [hm] at this; simp at this
      | some p => obtain ⟨x, y⟩ := p; simp only [fenceSearch, hop, hm]; rfl
    · have hs : ([] : List Char) ++ fence ++ pythonTag ++ ['\n'] ++ body ++ fence ++ post
          = fenceOpenPython ++ (body ++ fence ++ post) := by
        rw [fenceOpenPython_eq]; simp [List.append_assoc]
      have hop : openTag ('\u0060' :: '\u0060' :: '\u0060' :: 'p' :: 'y' :: 't' :: 'h' :: 'o'
            :: 'n' :: '\n' :: (body ++ fence ++ post))
          = some (body ++ fence ++ post) := openTag_python _
      rw [hs, fenceOpenPython_cons]
      have := splitFence_append_isSome body post
      cases hm : splitFence (body ++ fence ++ post) with
      | none => rw [hm] at this; simp at this
      | some p => obtain ⟨x, y⟩ := p; simp only [fenceSearch, hop, hm]; rfl
  | cons c pre' ih =>
    intro tag body post htag
    have hs : (c :: pre') ++ fence ++ tag ++ ['\n'] ++ body ++ fence ++ post
        = c :: (pre' ++ fence ++ tag ++ ['\n'] ++ body ++ fence ++ post) := by
      simp [List.append_assoc]
    rw [hs]
    cases hop : openTag (c :: (pre' ++ fence ++ tag ++ ['\n'] ++ body ++ fence ++ post)) with
    | none => simp only [fenceSearch, hop]; exact ih tag body post htag
    | some rest =>
      cases hsp : splitFence rest with
      | none => simp only [fenceSearch, hop, hsp]; exact ih tag body post htag
      | some p => obtain ⟨x, y⟩ := p; simp only [fenceSearch, hop, hsp]; rfl

theorem hasFencedBlock_of_search {s b : List Char} (h : fenceSearch s = some b) :
    hasFencedBlock s := by
  obtain ⟨pre, tag, post, htag, heq⟩ := fenceSearch_eq_some h
  exact ⟨pre, tag, b, post, htag, heq⟩

theorem search_isSome_of_hasFencedBlock {s : List Char} (h : hasFencedBlock s) :
    (fenceSearch s).isSome = true := by
  obtain ⟨pre, tag, body, post, htag, heq⟩ := h
  rw [heq]
  exact fenceSearch_isSome pre tag body post htag

/-! ### The dataset

The file `data/sc_voting.csv` is not part of the source tree; its schema is
modelled from the spec and the in-code column documentation. -/

/-- A calendar date, as produced by date parsing. -/
structure SCDate where
  day : Nat
  month : Nat
  year : Nat
deriving DecidableEq

/-- Modelled from the spec: one raw record of `data/sc_voting.csv` (a file not
present in the repository), with the fixed column schema the spec describes:
identifier, date (a `DD/MM/YYYY` string), resolution number, draft symbol,
outcome category, agenda metadata, vote value, member-state name and a derived
year (numeric as read, possibly fractional, hence `ℚ`). -/
structure RawRow where
  id : List Char
  rawYear : ℚ
  rawDate : List Char
  resolution : List Char
  draft : List Char
  outcomeResults : List Char
  agendaItem : List Char
  agendaCategory : List Char
  agendaRegion : List Char
  vote : List Char
  memberState : List Char
deriving DecidableEq

/-- One row of the loaded DataFrame `df`: `Date` parsed to an optional date
(`none` for coerced unparseable entries), `Year` an integer. -/
structure Row where
  id : List Char
  year : Int
  date : Option SCDate
  resolution : List Char
  draft : List Char
  outcomeResults : List Char
  agendaItem : List Char
  agendaCategory : List Char
  agendaRegion : List Char
  vote : List Char
  memberState : List Char
deriving DecidableEq

/-- The column names of `df`, as documented in `column_descriptions`. -/
def dfColumns : List String :=
  ["ID", "Year", "Date", "Resolution", "Draft", "Outcome results",
   "Agenda item", "Agenda category", "Agenda region", "Vote", "Member State"]

/-- Accumulate decimal digits; fail on a non-digit. -/
def natOfDigitsAux : List Char → Nat → Option Nat
  | [], acc => some acc
  | c :: cs, acc =>
    if c.isDigit then natOfDigitsAux cs (acc * 10 + (c.toNat - 48)) else none

/-- Parse a non-empty all-digit string to a number. -/
def natOfDigits (s : List Char) : Option Nat :=
  if s = [] then none else natOfDigitsAux s 0

/-- Split a string at every `/`. -/
def splitOnSlash : List Char → List (List Char)
  | [] => [[]]
  | c :: cs =>
    if c = '/' then [] :: splitOnSlash cs
    else
      match splitOnSlash cs with
      | g :: gs => (c :: g) :: gs
      | [] => [[c]]

/-- Modelled from the spec: `pd.to_datetime(..., dayfirst=True, errors="coerce")`
applied to the `DD/MM/YYYY` date strings of the dataset (pandas itself is not
part of the repository).  An unparseable entry is coerced to `none`. -/
def toDatetimeDayfirstCoerce (s : List Char) : Option SCDate :=
  match splitOnSlash (pstrip s) with
  | [d, m, y] =>
    match natOfDigits d, natOfDigits m, natOfDigits y with
    | some dd, some mm, some yy =>
      if 1 ≤ dd && dd ≤ 31 && 1 ≤ mm && mm ≤ 12 then some ⟨dd, mm, yy⟩ else none
    | _, _, _ => none
  | _ => none

/-- Modelled from the spec: pandas `.round()` (round half to even) on the raw
numeric `Year` value, giving the integer stored by `.astype("Int64")`. -/
def roundHalfEven (q : ℚ) : Int :=
  let f : Int := ⌊q⌋
  let r : ℚ := q - f
  if r < 1/2 then f
  else if 1/2 < r then f + 1
  else if f % 2 = 0 then f else f + 1

/-- app.py lines 10-12: the per-row effect of loading: parse `Date` with
coercion, round `Year` to an integer. -/
def loadRow (r : RawRow) : Row :=
  { id := r.id
    year := roundHalfEven r.rawYear
    date := toDatetimeDayfirstCoerce r.rawDate
    resolution := r.resolution
    draft := r.draft
    outcomeResults := r.outcomeResults
    agendaItem := r.agendaItem
    agendaCategory := r.agendaCategory
    agendaRegion := r.agendaRegion
    vote := r.vote
    memberState := r.memberState }

/-- The dataset as loaded at process start. -/
def loadDf (rs : List RawRow) : List Row := rs.map loadRow

/-! ### The chat model

Messages, API calls, and the per-turn state machine of app.py lines 84-189. -/

/-- One entry of `st.session_state.messages`.  Only assistant turns produced on
the success path carry the `code` and `explanation` fields (app.py line 177);
all other appends set only `role` and `content`. -/
structure Message where
  role : String
  content : List Char
  code : Option (List Char) := none
  explanation : Option (List Char) := none
deriving DecidableEq

/-- A role/content message of the chat-completion payload. -/
structure ChatMsg where
  role : String
  content : List Char
deriving DecidableEq

/-- One outbound request to the hosted chat-completion API. -/
structure ApiCall where
  model : String
  messages : List ChatMsg
  temperature : ℚ
deriving DecidableEq

/-- Outcome of a `client.chat.completions.create` call: the reply content, or
the message of the raised exception. -/
inductive ApiResult where
  | ok (content : List Char)
  | err (msg : List Char)
deriving DecidableEq

/-- Outcome of `exec(code)`: the stdout text captured by `redirect_stdout`, or
the message of the raised exception. -/
inductive ExecOutcome where
  | ok (captured : List Char)
  | err (msg : List Char)
deriving DecidableEq

/-- The semantics of executing a model-generated code string: `exec` runs it
unsandboxed with the live `df` in scope, so its effect is an arbitrary function
of the current DataFrame, returning the (possibly changed) DataFrame and the
outcome. -/
abbrev ExecSem := List Char → List Row → List Row × ExecOutcome

/-- The application state: the transcript and the module-level DataFrame. -/
structure AppState where
  messages : List Message
  df : List Row
deriving DecidableEq

/-- Result of one user turn: the new state, the API calls made during the turn
in order, and (ghost field, for specification) the code string passed to
`exec`, if any. -/
structure TurnResult where
  state : AppState
  calls : List ApiCall
  executed : Option (List Char)
deriving DecidableEq

/-! ### Prompt texts (app.py lines 22-36, 46-58, 89-135) -/

/-- app.py lines 22-36: `column_descriptions`. -/
def columnDescriptions : List Char :=
  ("\nThe DataFrame `df` contains the following columns:\n\n- ID: An identifier for each draft resolution put to a vote. Since the data is unpivoted by Member State, each ID appears once per vote cast. Use `ID.nunique()` to count draft resolutions, and `len(df)` or `.shape[0]` to count total individual votes.\n- Year: stored as an integer (e.g., 1994). Use this column to filter by year. When plotting, treat it as a categorical/time label — do not format it with commas (e.g., write \"2002\", not \"2,002\").\n- Date: The date on which the Security Council held the vote (in DD/MM/YYYY format).\n- Resolution: The number assigned to the resolution, if successfully adopted (e.g., \"924 (1994)\").\n- Draft: The UN document symbol of the draft resolution (e.g., \"S/1994/646\").\n- Outcome results: The result of the vote on the draft resolution (contains the followin categories: \"Adopted unanimously\", \"Adopted by consensus\", \"Adopted by acclamation\", \"Adopted by majority\", \"Adopted without a vote\", \"Not adopted - failed to receive required number of votes\", \"Not adopted - no vote\", \"Not adopted - veto\").\n- Agenda item: The agenda item of the Security Council under which the vote took place (e.g., \"The situation in the Republic of Yemen\").\n- Agenda category: Indicates whether the agenda item is country-/region-specific, or thematic.\n- Agenda region: The geographical region related to the agenda item (e.g., \"Middle East\", \"Africa\", \"Asia\").\n- Vote: The vote cast by the Member State on the draft resolution. Values include \"Yes\", \"No\", or \"Abstain\".\n- Member State: The name of the country casting the vote (e.g., \"Argentina\", \"China\", \"United States\").\n").toList

/-- The static text of the code-generation system prompt before the column
descriptions (app.py lines 89-97). -/
def systemPromptHead : List Char :=
  ("\nYou are a Python data analyst working with a Pandas DataFrame called `df` in a Streamlit app.\n\nOnly return clean, executable code — no markdown, no triple backticks, no comments, no imports, and do not redefine the DataFrame.\n\nAlways use clear, human-readable sentences in st.write, e.g.:\n\"France has voted No 22 times since 1994.\"\n\nThe columns available in the DataFrame are:\n").toList

/-- The static text between the column descriptions and the user's question:
the few-shot examples block (app.py lines 99-132). -/
def systemPromptExamples : List Char :=
  ("\n\nUse the following examples as **inspiration for tone and logic** — do NOT copy them literally or execute them:\n\n\"\"\"\nQuestion: How many draft resolutions were not adopted?\nCode:\nst.write(\"There were\", df[df[\"Outcome results\"] == \"Not adopted\"][\"Draft\"].nunique(), \"draft resolutions that were not adopted.\")\n\n---\n\nQuestion: How many No votes did France cast since 1992?\nCode:\nst.write(\"France has voted No\", len(df[(df[\"Member State\"] == \"France\") & (df[\"Vote\"] == \"No\") & (df[\"Year\"] >= 1992)]), \"times since 1992.\")\n\n---\n\nQuestion: Compare how often each P5 member voted No.\nCode:\np5 = [\"China\", \"France\", \"Russian Federation\", \"United Kingdom\", \"United States\"]\ndf_p5_no = df[(df[\"Vote\"] == \"No\") & (df[\"Member State\"].isin(p5))]\nno_counts = df_p5_no[\"Member State\"].value_counts()\nst.bar_chart(no_counts)\n\n---\n\nQuestion: Show a stacked bar chart by year of voting outcome (e.g. adopted, not adopted).\nCode:\ndf_unique_res = df.drop_duplicates(subset=\"Draft\")\noutcome_by_year = df_unique_res.groupby([\"Year\", \"Outcome results\"]).size().unstack(fill_value=0)\nst.bar_chart(outcome_by_year)\n\"\"\"\n\nThe user’s question is:\n\"").toList

/-- The static text after the user's question (app.py lines 132-135). -/
def systemPromptTail : List Char :=
  ("\"\n\nWrite only executable code using Streamlit to answer the question. Use the column names provided. Ensure the result is clearly written using natural sentences.\n").toList

/-- app.py lines 89-135: the code-generation system prompt, an f-string
interpolating `column_descriptions` and the user's question. -/
def systemPrompt (u : List Char) : List Char :=
  systemPromptHead ++ columnDescriptions ++ systemPromptExamples ++ u ++ systemPromptTail

/-- The static text of the explanation prompt before the user's question
(app.py lines 46-54). -/
def explainPromptHead : List Char :=
  ("\nYou are an assistant helping non-technical users understand Python code used in a data analysis app.\n\nPlease explain the logic of the code below in no more than 4 short, plain-English bullet points. Do not use programming jargon.\n\nFocus only on what the code does — not how or why.\n\nQuestion:\n\"").toList

/-- The static text between the user's question and the code (app.py lines
54-57). -/
def explainPromptMid : List Char := ("\"\n\nCode:\n").toList

/-- app.py lines 46-58: the explanation prompt of `explain_code_steps`. -/
def explainPrompt (code u : List Char) : List Char :=
  explainPromptHead ++ u ++ explainPromptMid ++ code ++ ("\n").toList

/-! ### Fixed message texts -/

/-- app.py line 68: fallback when the explanation call raises. -/
def couldNotExplain : List Char := ("⚠️ Could not generate explanation.").toList

/-- app.py line 162: chat text shown when `exec(code)` raises `e`. -/
def execErrContent (m : List Char) : List Char :=
  ("⚠️ Execution error:\n\n").toList ++ m

/-- app.py line 163: comment prepended to the code after an execution error. -/
def execErrComment : List Char := ("# Error occurred during execution\n").toList

/-- app.py lines 185-188: chat text shown when the outer try raises `e`. -/
def genErrContent (m : List Char) : List Char :=
  ("❌ Error generating response:\n\n").toList ++ m

/-- app.py lines 39-42: the initial transcript. -/
def initMessages : List Message :=
  [{ role := "assistant"
     content := ("Ask me anything about voting on draft resolutions in the Security Council since 1992.").toList }]

/-- The state at process start: greeting message and the loaded dataset. -/
def initState (df0 : List Row) : AppState := { messages := initMessages, df := df0 }

/-! ### One user turn (app.py lines 84-189) -/

/-- app.py line 86: the appended user message. -/
def userMsg (u : List Char) : Message := { role := "user", content := u }

/-- An assistant message carrying only displayed content (error paths). -/
def mkAsst (content : List Char) : Message := { role := "assistant", content := content }

/-- app.py lines 138-139: system prompt followed by the session messages
(the just-appended user message included), projected to role/content. -/
def genHistory (u : List Char) (st : AppState) : List ChatMsg :=
  { role := "system", content := systemPrompt u } ::
    (st.messages ++ [userMsg u]).map (fun m => { role := m.role, content := m.content })

/-- app.py lines 143-147: the code-generation request (`model="gpt-4o"`,
`temperature=0.3`). -/
def genApiCall (msgs : List ChatMsg) : ApiCall :=
  { model := "gpt-4o", messages := msgs, temperature := 3/10 }

/-- app.py lines 61-65: the explanation request (`model="gpt-4o"`,
`temperature=0.2`, a single user message). -/
def explainApiCall (code u : List Char) : ApiCall :=
  { model := "gpt-4o"
    messages := [{ role := "user", content := explainPrompt code u }]
    temperature := 2/10 }

/-- app.py lines 60-68: the explanation text — the stripped reply, or the
fallback text when the call raised. -/
def explanationOf : ApiResult → List Char
  | ApiResult.ok c => pstrip c
  | ApiResult.err _ => couldNotExplain

/-- app.py lines 158-163: the displayed result of executing the code. -/
def execResultContent : ExecOutcome → List Char
  | ExecOutcome.ok captured => pstrip captured
  | ExecOutcome.err m => execErrContent m

/-- app.py line 163: the code as recorded after execution (error comment
prepended when `exec` raised). -/
def finalCodeOf (code : List Char) : ExecOutcome → List Char
  | ExecOutcome.ok _ => code
  | ExecOutcome.err _ => execErrComment ++ code

/-- The assistant message appended on the inner path (app.py lines 177-182). -/
def asstMsgOf (code : List Char) (out : ExecOutcome) (expl : ApiResult) : Message :=
  { role := "assistant"
    content := execResultContent out
    code := some (finalCodeOf code out)
    explanation := some (explanationOf expl) }

/-- app.py lines 84-189: one user turn.  `gen` and `expl` are the outcomes of
the two API calls; `esem` is the semantics of the executed code string.  When
the code-generation call raises, the outer `except` appends an error message
and no further call is made; otherwise the code is extracted and executed, the
explanation call is made, and the assistant message carries content, code and
explanation. -/
def runTurn (u : List Char) (gen expl : ApiResult) (esem : ExecSem)
    (st : AppState) : TurnResult :=
  match gen with
  | ApiResult.err m =>
    { state := { st with messages := (st.messages ++ [userMsg u]) ++ [mkAsst (genErrContent m)] }
      calls := [genApiCall (genHistory u st)]
      executed := none }
  | ApiResult.ok content =>
    let code := extractCode content
    let res := esem code st.df
    { state :=
        { messages := (st.messages ++ [userMsg u]) ++ [asstMsgOf code res.2 expl]
          df := res.1 }
      calls := [genApiCall (genHistory u st), explainApiCall (finalCodeOf code res.2) u]
      executed := some code }

/-! ### Transcript well-formedness -/

/-- A turn is one of user/assistant, and user turns carry neither a code nor
an explanation field. -/
def msgWellFormed (m : Message) : Prop :=
  (m.role = "user" ∨ m.role = "assistant") ∧
  (m.role = "user" → m.code = none ∧ m.explanation = none)

/-- Every message of the transcript is well-formed. -/
def transcriptWellFormed (ms : List Message) : Prop := ∀ m ∈ ms, msgWellFormed m

/-! ### Concrete demonstration inputs -/

/-- A dataset row used in concrete instantiations. -/
def demoRow : Row :=
  { id := ("1").toList, year := 1994, date := none
    resolution := ("924 (1994)").toList, draft := ("S/1994/646").toList
    outcomeResults := ("Adopted unanimously").toList
    agendaItem := [], agendaCategory := [], agendaRegion := []
    vote := ("Yes").toList, memberState := ("France").toList }

/-- A model reply whose stripped text is a python-tagged fenced block. -/
def demoFenced : List Char := ("```python\nst.write(1)\n```").toList

/-- A fence-less model reply with prose lines. -/
def noFenceReply : List Char :=
  ("first line of prose\nsecond line is plain words\nx = 1").toList

/-- Semantics of a code string that empties the DataFrame. -/
def wipeSem : ExecSem := fun _ _ => ([], ExecOutcome.ok [])

/-- Semantics of a code string that leaves the DataFrame unchanged and prints
nothing (answering only through Streamlit calls). -/
def keepSem : ExecSem := fun _ d => (d, ExecOutcome.ok [])

/-- Semantics of a code string that raises without touching the DataFrame. -/
def raiseSem : ExecSem := fun _ d => (d, ExecOutcome.err (("division by zero").toList))

/-! ### Shape of a turn -/

theorem runTurn_messages_eq (u : List Char) (g er : ApiResult) (esem : ExecSem)
    (st : AppState) :
    ∃ a : Message, a.role = "assistant" ∧
      (runTurn u g er esem st).state.messages = st.messages ++ [userMsg u, a] := by
  cases g with
  | err m =>
    exact ⟨mkAsst (genErrContent m), rfl, by simp [runTurn, List.append_assoc]⟩
  | ok c =>
    exact ⟨asstMsgOf (extractCode c) (esem (extractCode c) st.df).2 er, rfl,
      by simp [runTurn, List.append_assoc]⟩

/-! ### The claims -/

/-- C1: For every string returned by the code-generation call, extraction
isolates the (stripped) contents of a fenced code block whenever the stripped
reply contains a ```-fenced block — optional `python` tag, newline after the
opening fence — and otherwise the raw stripped reply itself is the extracted
string; in both cases `extractCode` is exactly the string the turn passes to
`exec`. -/
theorem c1_code_extraction (resp : List Char) :
    (hasFencedBlock (pstrip resp) →
      ∃ pre tag body post, isFenceTag tag ∧
        pstrip resp = pre ++ fence ++ tag ++ ['\n'] ++ body ++ fence ++ post ∧
        extractCode resp = pstrip body) ∧
    (¬ hasFencedBlock (pstrip resp) → extractCode resp = pstrip resp) ∧
    ∀ (u : List Char) (er : ApiResult) (esem : ExecSem) (st : AppState),
      (runTurn u (ApiResult.ok resp) er esem st).executed = some (extractCode resp) := by
  refine ⟨?_, ?_, fun u er esem st => rfl⟩
  · intro h
    cases hm : fenceSearch (pstrip resp) with
    | none =>
      have hs := search_isSome_of_hasFencedBlock h
      rw [hm] at hs
      simp at hs
    | some b =>
      obtain ⟨pre, tag, post, htag, heq⟩ := fenceSearch_eq_some hm
      exact ⟨pre, tag, b, post, htag, heq, by simp only [extractCode, hm]⟩
  · intro h
    cases hm : fenceSearch (pstrip resp) with
    | some b => exact absurd (hasFencedBlock_of_search hm) h
    | none => simp only [extractCode, hm]

/-- C1 witness: extraction at a concrete python-tagged fenced reply. -/
theorem c1_witness :
    ∃ pre tag body post, isFenceTag tag ∧
      pstrip demoFenced = pre ++ fence ++ tag ++ ['\n'] ++ body ++ fence ++ post ∧
      extractCode demoFenced = pstrip body :=
  (c1_code_extraction demoFenced).1
    ⟨[], pythonTag, ("st.write(1)\n").toList, [], Or.inr rfl, by decide⟩

/-- C2 counterexample: a turn whose generated code empties the DataFrame —
`exec` runs unsandboxed with `df` in scope, so the dataset is not immutable
across user turns. -/
theorem c2_counterexample :
    (runTurn (("q").toList) (ApiResult.ok (("df.drop(df.index, inplace=True)").toList))
        (ApiResult.ok (("x").toList)) wipeSem (initState [demoRow])).state.df
      ≠ (initState [demoRow]).df := by decide

/-- C2 (amended): the DataFrame is read once at start and the app's own turn
logic never mutates it — whenever the executed code's own effect on `df` is
the identity (and always on the API-error path, where nothing executes), the
turn leaves `df` unchanged. -/
theorem c2_df_preserved (u : List Char) (g er : ApiResult) (esem : ExecSem)
    (st : AppState) (h : ∀ code, (esem code st.df).1 = st.df) :
    (runTurn u g er esem st).state.df = st.df := by
  cases g with
  | err m => rfl
  | ok c => exact h (extractCode c)

/-- C2 witness: a turn whose executed code preserves the DataFrame. -/
theorem c2_witness :
    (runTurn (("q").toList) (ApiResult.ok (("st.write(1)").toList))
        (ApiResult.ok (("x").toList)) keepSem (initState [demoRow])).state.df
      = (initState [demoRow]).df :=
  c2_df_preserved _ _ _ _ _ (fun _ => rfl)

/-- C3 counterexample: on a turn where the code-generation call raises, only
one API call is made, not two. -/
theorem c3_counterexample :
    ¬ ((runTurn (("q").toList) (ApiResult.err (("boom").toList))
        (ApiResult.ok (("x").toList)) keepSem (initState [demoRow])).calls.length = 2) := by
  decide

/-- C3 (amended): when the code-generation call returns, exactly two API calls
are made, in order — code generation (temperature 0.3) then explanation
(temperature 0.2) — and when it raises, only the code-generation call is made;
every call carries a temperature parameter. -/
theorem c3_api_calls (u c m : List Char) (er : ApiResult) (esem : ExecSem)
    (st : AppState) :
    (∃ code2, (runTurn u (ApiResult.ok c) er esem st).calls
        = [genApiCall (genHistory u st), explainApiCall code2 u]) ∧
    (runTurn u (ApiResult.err m) er esem st).calls = [genApiCall (genHistory u st)] ∧
    (genApiCall (genHistory u st)).temperature = 3/10 ∧
    ∀ code2, (explainApiCall code2 u).temperature = 2/10 :=
  ⟨⟨finalCodeOf (extractCode c) (esem (extractCode c) st.df).2, rfl⟩, rfl, rfl,
    fun _ => rfl⟩

/-- C4: every failure is handled by catching the broad exception and showing
its message as chat text: when `exec` raises, the message is embedded verbatim
in the displayed content and the turn is still recorded (user message plus
assistant message with code and explanation); when the code-generation call
raises, the message is embedded verbatim in the recorded assistant reply. -/
theorem c4_error_display (u c m : List Char) (er : ApiResult) (esem : ExecSem)
    (st : AppState) :
    ((esem (extractCode c) st.df).2 = ExecOutcome.err m →
      (runTurn u (ApiResult.ok c) er esem st).state.messages =
        st.messages ++ [userMsg u,
          { role := "assistant", content := execErrContent m
            code := some (execErrComment ++ extractCode c)
            explanation := some (explanationOf er) }]) ∧
    ((runTurn u (ApiResult.err m) er esem st).state.messages =
      st.messages ++ [userMsg u, mkAsst (genErrContent m)]) ∧
    execErrContent m = ("⚠️ Execution error:\n\n").toList ++ m ∧
    genErrContent m = ("❌ Error generating response:\n\n").toList ++ m := by
  refine ⟨?_, ?_, rfl, rfl⟩
  · intro h
    simp [runTurn, asstMsgOf, execResultContent, finalCodeOf, h, List.append_assoc]
  · simp [runTurn, List.append_assoc]

/-- C4 witness: a concrete turn whose executed code raises. -/
theorem c4_witness :
    (runTurn (("q").toList) (ApiResult.ok (("1/0").toList))
        (ApiResult.ok (("x").toList)) raiseSem (initState [demoRow])).state.messages =
      (initState [demoRow]).messages ++ [userMsg (("q").toList),
        { role := "assistant", content := execErrContent (("division by zero").toList)
          code := some (execErrComment ++ extractCode (("1/0").toList))
          explanation := some (explanationOf (ApiResult.ok (("x").toList))) }] :=
  (c4_error_display (("q").toList) (("1/0").toList) (("division by zero").toList)
    (ApiResult.ok (("x").toList)) raiseSem (initState [demoRow])).1 rfl

/-- C5 counterexample: on a fence-less reply the fallback performs no line
filtering — the stripped reply, prose lines included, is used verbatim. -/
theorem c5_counterexample : extractCode noFenceReply = noFenceReply := by decide

/-- C5 (amended): when the fence regex does not match, extraction falls back
to the raw stripped model output unchanged — the identity, with no heuristic
line filtering. -/
theorem c5_fallback_identity (s : List Char) (h : fenceSearch (pstrip s) = none) :
    extractCode s = pstrip s := by
  simp only [extractCode, h]

/-- C5 witness: the fallback at a concrete fence-less reply. -/
theorem c5_witness : extractCode noFenceReply = pstrip noFenceReply :=
  c5_fallback_identity noFenceReply (by decide)

/-- C6: the transcript is an ordered sequence of turns appended in arrival
order, every role is user or assistant, and only assistant turns may carry the
code and explanation fields; the invariant holds initially and is preserved by
every turn, error paths included. -/
theorem c6_transcript_invariant (u : List Char) (g er : ApiResult) (esem : ExecSem)
    (st : AppState) (h : transcriptWellFormed st.messages) :
    transcriptWellFormed initMessages ∧
    ∃ a : Message, a.role = "assistant" ∧
      (runTurn u g er esem st).state.messages = st.messages ++ [userMsg u, a] ∧
      transcriptWellFormed (runTurn u g er esem st).state.messages := by
  obtain ⟨a, ha, heq⟩ := runTurn_messages_eq u g er esem st
  refine ⟨?_, a, ha, heq, ?_⟩
  · intro m hm
    simp only [initMessages, List.mem_singleton] at hm
    subst hm
    exact ⟨Or.inr rfl, fun hu => absurd hu (by decide)⟩
  · rw [heq]
    intro m hm
    rcases List.mem_append.mp hm with hin | hpair
    · exact h m hin
    · rcases List.mem_cons.mp hpair with hmu | hma
      · subst hmu
        exact ⟨Or.inl rfl, fun _ => ⟨rfl, rfl⟩⟩
      · rcases List.mem_singleton.mp (by simpa using hma) with rfl
        refine ⟨Or.inr ha, fun hu => ?_⟩
        rw [ha] at hu
        exact absurd hu (by decide)

/-- C6 witness: the invariant across a concrete turn from the initial state. -/
theorem c6_witness :
    transcriptWellFormed initMessages ∧
    ∃ a : Message, a.role = "assistant" ∧
      (runTurn (("q").toList) (ApiResult.ok (("st.write(1)").toList))
          (ApiResult.ok (("x").toList)) keepSem (initState [demoRow])).state.messages
        = (initState [demoRow]).messages ++ [userMsg (("q").toList), a] ∧
      transcriptWellFormed
        (runTurn (("q").toList) (ApiResult.ok (("st.write(1)").toList))
          (ApiResult.ok (("x").toList)) keepSem (initState [demoRow])).state.messages :=
  c6_transcript_invariant _ _ _ _ _ (by
    intro m hm
    simp only [initState, initMessages, List.mem_singleton] at hm
    subst hm
    exact ⟨Or.inr rfl, fun hu => absurd hu (by decide)⟩)

/-- C7: for every user input, the system prompt sent to the code-generation
model contains the user's literal question verbatim, and that prompt is the
first message of the turn's first API call. -/
theorem c7_prompt_verbatim (u : List Char) (g er : ApiResult) (esem : ExecSem)
    (st : AppState) :
    (∃ a b : List Char, systemPrompt u = a ++ u ++ b) ∧
    (runTurn u g er esem st).calls.head? = some (genApiCall (genHistory u st)) ∧
    (genHistory u st).head? = some { role := "system", content := systemPrompt u } := by
  refine ⟨⟨systemPromptHead ++ columnDescriptions ++ systemPromptExamples,
    systemPromptTail, ?_⟩, ?_, rfl⟩
  · simp [systemPrompt, List.append_assoc]
  · cases g <;> rfl

/-- C8: after loading, the dataset has the fixed column set (identifier,
derived integer year, date, resolution number, draft symbol, outcome category,
agenda metadata, vote value, member-state name), the `Date` column is parsed
to a date with unparseable entries coerced to `none`, and the `Year` column is
an integer. -/
theorem c8_dataset_schema (rs : List RawRow) (r : RawRow) :
    dfColumns = ["ID", "Year", "Date", "Resolution", "Draft", "Outcome results",
      "Agenda item", "Agenda category", "Agenda region", "Vote", "Member State"] ∧
    loadDf rs = rs.map loadRow ∧
    (loadRow r).date = toDatetimeDayfirstCoerce r.rawDate ∧
    (loadRow r).year = roundHalfEven r.rawYear ∧
    toDatetimeDayfirstCoerce (("17/05/1994").toList) = some ⟨17, 5, 1994⟩ ∧
    toDatetimeDayfirstCoerce (("not a date").toList) = none :=
  ⟨rfl, rfl, rfl, rfl, by decide, by decide⟩

/-- C9: every completed user turn appends exactly two messages to the
transcript — the user message followed by one assistant message — on the
success path, the execution-error path and the outer API-error path alike. -/
theorem c9_turn_appends_two (u : List Char) (g er : ApiResult) (esem : ExecSem)
    (st : AppState) :
    ∃ a : Message, a.role = "assistant" ∧
      (runTurn u g er esem st).state.messages = st.messages ++ [userMsg u, a] ∧
      (runTurn u g er esem st).state.messages.length = st.messages.length + 2 := by
  obtain ⟨a, ha, heq⟩ := runTurn_messages_eq u g er esem st
  exact ⟨a, ha, heq, by rw [heq]; simp⟩

/-- C10: on the success path, the assistant message's displayed content is
exactly the stdout captured while executing the generated code, stripped of
surrounding whitespace; code that answers only through Streamlit calls
captures no stdout, hence empty content. -/
theorem c10_success_content (u c cap : List Char) (er : ApiResult) (esem : ExecSem)
    (st : AppState) (h : (esem (extractCode c) st.df).2 = ExecOutcome.ok cap) :
    (runTurn u (ApiResult.ok c) er esem st).state.messages =
      st.messages ++ [userMsg u,
        { role := "assistant", content := pstrip cap
          code := some (extractCode c)
          explanation := some (explanationOf er) }] ∧
    pstrip ([] : List Char) = [] := by
  refine ⟨?_, rfl⟩
  simp [runTurn, asstMsgOf, execResultContent, finalCodeOf, h, List.append_assoc]

/-- C10 witness: a concrete successful turn with Streamlit-only output. -/
theorem c10_witness :
    (runTurn (("q").toList) (ApiResult.ok (("st.write(1)").toList))
        (ApiResult.ok (("x").toList)) keepSem (initState [demoRow])).state.messages =
      (initState [demoRow]).messages ++ [userMsg (("q").toList),
        { role := "assistant", content := pstrip ([] : List Char)
          code := some (extractCode (("st.write(1)").toList))
          explanation := some (explanationOf (ApiResult.ok (("x").toList))) }] ∧
    pstrip ([] : List Char) = [] :=
  c10_success_content (("q").toList) (("st.write(1)").toList) []
    (ApiResult.ok (("x").toList)) keepSem (initState [demoRow]) rfl

end VotingAgent
